import Mathlib

/-!
# EduQuest generate-verify-score pipeline: a shallow embedding

This file embeds the core of the EduQuest backend
(`backend/main.py`, `backend/agents/question_generator.py`,
`backend/services/rag_service.py`) in Lean 4 and proves the spec's claims
about it.

Modelling conventions:
* Python `float` arithmetic is modelled by exact rationals (`ℚ`).
* The embedding model and the generative model are opaque external services;
  they enter as oracle parameters.  An oracle returning `Except String α`
  models a call that may raise (`Except.error msg` is a raised exception with
  message `msg`).  The structured judgment response is modelled as
  `Except String (Option JudgmentJson)`: `.error` = the model call raised,
  `.ok none` = the call returned text that fails to parse as JSON
  (`json.JSONDecodeError`), `.ok (some j)` = the parsed judgment.
* Python strings are Lean `String`s; `str.split()` / `' '.join` /
  `str.strip()` / `str.lower()` and the two `re.sub` patterns used by
  `normalize_answer` are embedded character-exactly over `List Char`
  (whitespace = the ASCII whitespace class; `str.lower` = ASCII lowercasing,
  which is `Char.toLower`).
-/

/-- Python's whitespace class for `str.split()` / `str.strip()` / `\s`
(restricted to ASCII, which covers every string this development evaluates). -/
def isPySpace (c : Char) : Bool :=
  c = ' ' || c = '\t' || c = '\n' || c = '\r' || c = '\x0b' || c = '\x0c'

/-- The characters removed by `re.sub(r'[.,!?;:]', '', ans)`. -/
def isPunct (c : Char) : Bool :=
  c = '.' || c = ',' || c = '!' || c = '?' || c = ';' || c = ':'

/-- `text.split()`: split on runs of whitespace, dropping empty words.
`cur` is the (reversed) word being accumulated. -/
def splitWsAux : List Char → List Char → List (List Char)
  | [], cur => if cur.isEmpty then [] else [cur.reverse]
  | c :: cs, cur =>
    if isPySpace c then
      if cur.isEmpty then splitWsAux cs [] else cur.reverse :: splitWsAux cs []
    else splitWsAux cs (c :: cur)

/-- `text.split()` on a character list. -/
def splitWs (cs : List Char) : List (List Char) := splitWsAux cs []

/-- `' '.join(words)` on character lists. -/
def joinSpace : List (List Char) → List Char
  | [] => []
  | [w] => w
  | w :: ws => w ++ ' ' :: joinSpace ws

/-- `' '.join(text.split())`: collapse whitespace runs to single spaces and
strip the ends. -/
def collapseWs (cs : List Char) : List Char := joinSpace (splitWs cs)

/-- Drop the leading whitespace run (`\s*` of the paren regex). -/
def dropWs (cs : List Char) : List Char := cs.dropWhile isPySpace

/-- Scan `[^)]*\)`: consume characters up to and including the first `')'`,
returning the remainder, or `none` if no `')'` occurs. -/
def scanBody : List Char → Option (List Char)
  | [] => none
  | c :: cs => if c = ')' then some cs else scanBody cs

/-- Try to match the regex `\s*\([^)]*\)` at the head of `cs`; on success
return the unconsumed remainder. -/
def tryParenMatch (cs : List Char) : Option (List Char) :=
  if (dropWs cs).head? = some '(' then scanBody (dropWs cs).tail else none

/-- `re.sub(r'\s*\([^)]*\)', '', ans)` with explicit fuel: scan left to
right, removing each leftmost match. -/
def removeParensFuel : Nat → List Char → List Char
  | 0, cs => cs
  | _ + 1, [] => []
  | n + 1, c :: cs =>
    match tryParenMatch (c :: cs) with
    | some r => removeParensFuel n r
    | none => c :: removeParensFuel n cs

/-- `re.sub(r'\s*\([^)]*\)', '', ans)`. -/
def removeParens (cs : List Char) : List Char := removeParensFuel cs.length cs

/-- Remove the characters of `[.,!?;:]` (`re.sub(r'[.,!?;:]', '', ans)`). -/
def removePunct (cs : List Char) : List Char := cs.filter (fun c => !(isPunct c))

/-- `main.py` `normalize_answer` on character lists: lowercase, strip
parentheticals, collapse whitespace, strip sentence punctuation. -/
def normalizeL (cs : List Char) : List Char :=
  removePunct (collapseWs (removeParens (cs.map Char.toLower)))

/-- `str.strip()`. -/
def pyStrip (s : String) : String :=
  ⟨((s.data.dropWhile isPySpace).reverse.dropWhile isPySpace).reverse⟩

namespace Main

/-- `main.py` lines 354-359: the answer normalizer used by `check_answers`. -/
def normalize_answer (s : String) : String := ⟨normalizeL s.data⟩

end Main

/-- `preprocess_text` (`main.py` 61-66 and `rag_service.py` 16-30, identical):
collapse whitespace runs, then strip bullet characters. -/
def preprocess_text (s : String) : String :=
  ⟨(collapseWs s.data).filter (fun c => !(c = '•'))⟩

/-- A generated-question record as the Python code consumes it: a dict with
`question`, `correct_answer`, `explanation` and optionally `id`.
`explanation := none` models a dict without that key (`main.py` indexes it
directly and raises `KeyError`; `question_generator.py` uses `.get`). -/
structure QuestionDict where
  question : String
  correct_answer : String
  explanation : Option String
  id : Option String
deriving Repr, DecidableEq

/-- The `hallucination_check` object of a parsed judgment response. -/
structure HallucinationCheck where
  result : String
  evidence : String
  explanation : String
deriving Repr, DecidableEq

/-- The `quality_check` object of a parsed judgment response. -/
structure QualityCheck where
  rating : String
  reasoning : String
deriving Repr, DecidableEq

/-- The `semantic_consistency` object of a parsed judgment response. -/
structure SemanticConsistency where
  content_relevance : ℚ
  factual_accuracy : ℚ
  context_alignment : ℚ
  average_score : ℚ
deriving Repr, DecidableEq

/-- A judgment response that parsed successfully with the expected shape. -/
structure JudgmentJson where
  hallucination_check : HallucinationCheck
  quality_check : QualityCheck
  semantic_consistency : SemanticConsistency
deriving Repr, DecidableEq

/-- The `embedding_similarity` sub-dict of a verification result. -/
structure EmbeddingSimilarity where
  question : ℚ
  answer : ℚ
  explanation : ℚ
  average : ℚ
deriving Repr, DecidableEq

/-- The `verification` dict built by both verifier implementations.  Fields
that a given code path leaves out of the Python dict are `none`. -/
structure Verification where
  embedding_similarity : Option EmbeddingSimilarity
  hallucination_check : Option HallucinationCheck
  quality_check : Option QualityCheck
  semantic_consistency : Option SemanticConsistency
  total_score : Option ℚ
  is_valid : Bool
  error : Option String
deriving Repr, DecidableEq

/-- The full return value `{question_id, verification}` of both verifiers. -/
structure VerifyOutput where
  question_id : String
  verification : Verification
deriving Repr, DecidableEq

/-- `main.py` 144: `1.0 if result == "Y" else 0.0`. -/
def hallucinationScore (j : JudgmentJson) : ℚ :=
  if j.hallucination_check.result = "Y" then 1 else 0

/-- `main.py` 147-153: quality rating to score.  The source compares against
the Korean rating strings: `매우적절` = very_appropriate, `적절` =
appropriate, anything else (in particular `부적절` = inappropriate) falls to
the final branch. -/
def qualityScore (j : JudgmentJson) : ℚ :=
  if j.quality_check.rating = "매우적절" then 1
  else if j.quality_check.rating = "적절" then 7/10
  else 3/10

/-- `main.py` 159-163: the fused weighted total. -/
def fusedTotalScore (j : JudgmentJson) : ℚ :=
  hallucinationScore j * (4/10) + qualityScore j * (3/10)
    + j.semantic_consistency.average_score * (3/10)

/-- The result `verify_question_with_rag` returns from its catch-all
`except Exception` handler (`main.py` 200-208): only `error` and
`is_valid: False`, no other keys. -/
def errorVerification (msg : String) : Verification :=
  { embedding_similarity := none, hallucination_check := none,
    quality_check := none, semantic_consistency := none,
    total_score := none, is_valid := false, error := some msg }

namespace Main

/-- `verify_question_with_rag` (`main.py` 69-208).  `sim a b` is the cosine
similarity of `rag_model.encode a` and `rag_model.encode b` (an external
call that may raise); `llm` is the judgment call (see the header).  The
entire body sits in `try ... except Exception`, so the function always
returns; an exception anywhere inside maps to `errorVerification`. -/
def verify_question_with_rag (q : QuestionDict) (ctx : String)
    (sim : String → String → Except String ℚ)
    (llm : Except String (Option JudgmentJson)) : VerifyOutput :=
  let qid := q.id.getD ""
  let body : Except String Verification := do
    let explanation ← match q.explanation with
      | some e => Except.ok e
      | none => Except.error "KeyError: explanation"
    let q_similarity ← sim ctx (preprocess_text q.question)
    let a_similarity ← sim ctx (preprocess_text q.correct_answer)
    let e_similarity ← sim ctx (preprocess_text explanation)
    let emb : EmbeddingSimilarity :=
      ⟨q_similarity, a_similarity, e_similarity,
        (q_similarity + a_similarity + e_similarity) / 3⟩
    let judgment ← llm
    match judgment with
    | some j =>
      pure { embedding_similarity := some emb,
             hallucination_check := some j.hallucination_check,
             quality_check := some j.quality_check,
             semantic_consistency := some j.semantic_consistency,
             total_score := some (fusedTotalScore j),
             is_valid := decide (fusedTotalScore j ≥ 6/10),
             error := none }
    | none =>
      pure { embedding_similarity := some emb,
             hallucination_check := none, quality_check := none,
             semantic_consistency := none,
             total_score := some ((q_similarity + a_similarity + e_similarity) / 3),
             is_valid := decide ((q_similarity + a_similarity + e_similarity) / 3 ≥ 6/10),
             error := some "LLM 응답 파싱 실패" }
  match body with
  | Except.ok v => ⟨qid, v⟩
  | Except.error msg => ⟨qid, errorVerification msg⟩

end Main

namespace RAGService

/-- The dict returned by `RAGService.compute_question_similarity`
(`rag_service.py` 98-104). -/
structure SimilarityResult where
  question_similarity : ℚ
  answer_similarity : ℚ
  explanation_similarity : ℚ
  average_similarity : ℚ
  is_valid : Bool
deriving Repr, DecidableEq

/-- `RAGService.compute_question_similarity` (`rag_service.py` 59-104).
Unlike `main.py`'s inline verifier it preprocesses the context, reads the
explanation with `.get("explanation", "")`, only embeds a non-empty
explanation, and averages 2-way or 3-way accordingly.  It has no exception
handler: a raising `sim` propagates. -/
def compute_question_similarity (q : QuestionDict) (ctx : String)
    (sim : String → String → Except String ℚ) :
    Except String SimilarityResult := do
  let doc := preprocess_text ctx
  let question_text := preprocess_text q.question
  let answer_text := preprocess_text q.correct_answer
  let explanation_text := preprocess_text (q.explanation.getD "")
  let q_similarity ← sim doc question_text
  let a_similarity ← sim doc answer_text
  let e_similarity ← if explanation_text ≠ "" then sim doc explanation_text
                     else pure 0
  let avg_similarity :=
    if explanation_text ≠ "" then (q_similarity + a_similarity + e_similarity) / 3
    else (q_similarity + a_similarity) / 2
  pure ⟨q_similarity, a_similarity, e_similarity, avg_similarity,
        decide (avg_similarity ≥ 6/10)⟩

end RAGService

namespace QuestionGenerator

/-- `QuestionGenerator.verify_question` (`question_generator.py` 146-273).
Unlike `main.py`'s verifier there is no catch-all handler: an exception from
the similarity computation or the judgment call propagates to the caller
(the only `try` guards JSON parsing, which is already folded into
`llm = Except.ok none`). -/
def verify_question (q : QuestionDict) (ctx : String)
    (sim : String → String → Except String ℚ)
    (llm : Except String (Option JudgmentJson)) :
    Except String VerifyOutput := do
  let sr ← RAGService.compute_question_similarity q ctx sim
  let emb : EmbeddingSimilarity :=
    ⟨sr.question_similarity, sr.answer_similarity,
      sr.explanation_similarity, sr.average_similarity⟩
  let judgment ← llm
  let qid := q.id.getD ""
  match judgment with
  | some j =>
    pure ⟨qid,
      { embedding_similarity := some emb,
        hallucination_check := some j.hallucination_check,
        quality_check := some j.quality_check,
        semantic_consistency := some j.semantic_consistency,
        total_score := some (fusedTotalScore j),
        is_valid := decide (fusedTotalScore j ≥ 6/10),
        error := none }⟩
  | none =>
    pure ⟨qid,
      { embedding_similarity := some emb,
        hallucination_check := none, quality_check := none,
        semantic_consistency := none,
        total_score := some sr.average_similarity,
        is_valid := sr.is_valid,
        error := some "LLM 응답 파싱 실패" }⟩

end QuestionGenerator

namespace Main

/-- The `/api/generate-questions` endpoint body (`main.py` 232-343),
abstracted over the two generation-model responses.  `r1` is the outcome of
parsing the first response's JSON (`none` = `json.JSONDecodeError`), `r2`
that of the single retry response; `verify` is `verify_question_with_rag`
applied to each parsed question.  The returned `Nat` counts generation-model
calls actually issued.  Parse failure of the first response triggers exactly
one retry with the fixed reformatting prompt (`main.py` 296-324); failure of
the retry raises `HTTPException` ("문제 생성 실패"). -/
def generate_questions (r1 r2 : Option (List QuestionDict))
    (verify : QuestionDict → VerifyOutput) :
    Except String (List QuestionDict) × Nat :=
  match r1 with
  | some qs =>
    (Except.ok (qs.filter fun q => (verify q).verification.is_valid), 1)
  | none =>
    match r2 with
    | some qs =>
      (Except.ok (qs.filter fun q => (verify q).verification.is_valid), 2)
    | none => (Except.error "문제 생성 실패: JSON 파싱 오류", 2)

end Main

namespace QuestionGenerator

/-- `QuestionGenerator.generate_questions` (`question_generator.py` 29-144):
identical retry skeleton to the endpoint, but the fatal path raises
`ValueError` instead of `HTTPException`. -/
def generate_questions (r1 r2 : Option (List QuestionDict))
    (verify : QuestionDict → Except String VerifyOutput) :
    Except String (List QuestionDict) × Nat :=
  let keep : List QuestionDict → Except String (List QuestionDict) :=
    fun qs => do
      let outs ← qs.mapM fun q => do
        let v ← verify q
        pure (q, v.verification.is_valid)
      pure ((outs.filter Prod.snd).map Prod.fst)
  match r1 with
  | some qs => (keep qs, 1)
  | none =>
    match r2 with
    | some qs => (keep qs, 2)
    | none => (Except.error "문제 생성 실패: JSON 파싱 오류", 2)

end QuestionGenerator

/-- The three-valued correctness of a graded answer: Python's `True`,
`"partial"`, `False`. -/
inductive Correctness where
  | correct
  | half
  | wrong
deriving Repr, DecidableEq

/-- One element of the `answers` array of a `/api/check-answers` request,
as the endpoint reads it (`question_type` via `.get(..., "unknown")`). -/
structure AnswerSubmission where
  question : String
  user_answer : String
  correct_answer : String
  question_type : Option String
deriving Repr, DecidableEq

/-- One processed answer of the `/api/check-answers` response (`main.py`
413-424).  The `feedback` string requested from the generative model is not
modelled.  `similarity := none` models the key being absent. -/
structure ProcessedAnswer where
  question : String
  user_answer : String
  correct_answer : String
  is_correct : Correctness
  score : ℚ
  similarity : Option ℚ
deriving Repr, DecidableEq

namespace Main

/-- The per-answer body of the `check_answers` loop (`main.py` 362-424).
`sim a b` is the embedding cosine similarity of the two normalized answers
(only consulted on a short-answer mismatch, exactly as in the source). -/
def check_answer (a : AnswerSubmission) (sim : String → String → ℚ) :
    ProcessedAnswer :=
  let user_answer := pyStrip a.user_answer
  let correct_answer := pyStrip a.correct_answer
  let question_type := a.question_type.getD "unknown"
  let normalized_user_answer := normalize_answer user_answer
  let normalized_correct_answer := normalize_answer correct_answer
  let ic0 : Correctness :=
    if normalized_user_answer = normalized_correct_answer then .correct else .wrong
  let icSim : Correctness × ℚ :=
    if question_type = "short_answer" ∧ ic0 ≠ .correct then
      let s := sim normalized_user_answer normalized_correct_answer
      if s ≥ 8/10 then (.correct, s)
      else if s ≥ 6/10 then (.half, s)
      else (.wrong, s)
    else (ic0, 0)
  let score : ℚ := match icSim.1 with
    | .correct => 1
    | .half => 1/2
    | .wrong => 0
  { question := a.question, user_answer := user_answer,
    correct_answer := correct_answer, is_correct := icSim.1, score := score,
    similarity :=
      if question_type = "short_answer" ∧ icSim.1 ≠ .correct then some icSim.2
      else none }

end Main

namespace RAGService

/-- Descending stable insertion: place `x` after every earlier element whose
similarity is strictly greater, before the first one with similarity `≤`.
Together with `sortDescBySim` this models Python's stable
`list.sort(key=lambda x: x[1], reverse=True)`. -/
def insertDescBySim (x : String × ℚ) : List (String × ℚ) → List (String × ℚ)
  | [] => [x]
  | y :: ys => if x.2 < y.2 then y :: insertDescBySim x ys else x :: y :: ys

/-- Stable sort by descending similarity. -/
def sortDescBySim : List (String × ℚ) → List (String × ℚ)
  | [] => []
  | x :: xs => insertDescBySim x (sortDescBySim xs)

/-- The chunk list built by the loop
`for i in range(0, len(words), chunk_size//2): ' '.join(words[i:i+chunk_size])`
(`rag_service.py` 120-125): one chunk per start offset
`i ∈ {0, step, 2*step, ...} ∩ [0, len(words))` with `step = chunk_size//2`;
`range(0, n, step)` has `⌈n/step⌉ = (n + step - 1)/step` elements. -/
def chunkList (words : List String) (chunk_size : Nat) : List String :=
  let step := chunk_size / 2
  (List.range' 0 ((words.length + step - 1) / step) step).map fun i =>
    String.intercalate " " ((words.drop i).take chunk_size)

/-- `RAGService.extract_relevant_context` (`rag_service.py` 106-144).
The chunk loop is `for i in range(0, len(words), chunk_size//2)`; Python's
`range` raises `ValueError` when the step `chunk_size//2` is zero, i.e. for
`chunk_size ≤ 1`, which the `Except.error` branch models.  `sim q c` is the
cosine similarity of the query and chunk embeddings. -/
def extract_relevant_context (query document : String)
    (chunk_size top_k : Nat) (sim : String → String → ℚ) :
    Except String (List String) :=
  let step := chunk_size / 2
  if step = 0 then Except.error "ValueError: range() arg 3 must not be zero"
  else
    let words := (splitWs document.data).map (fun w => String.mk w)
    let chunks := chunkList words chunk_size
    if chunks.isEmpty then Except.ok []
    else
      let chunk_similarities := chunks.map fun c => (c, sim query c)
      Except.ok (((sortDescBySim chunk_similarities).take top_k).map Prod.fst)

end RAGService

/-- Wrap a pure similarity function as a never-raising oracle. -/
def okSim (f : String → String → ℚ) : String → String → Except String ℚ :=
  fun a b => Except.ok (f a b)

/-- A concrete judgment: hallucination `Y`, quality `적절` (appropriate),
semantic average `0.9` — the spec's worked fusion example. -/
def exampleJudgment : JudgmentJson :=
  ⟨⟨"Y", "evidence", "explanation"⟩, ⟨"적절", "reasoning"⟩,
    ⟨9/10, 9/10, 9/10, 9/10⟩⟩

/-- A concrete question record with all fields present. -/
def exampleQuestion : QuestionDict :=
  ⟨"What is photosynthesis?", "A process in plants", some "Plants convert light.", none⟩

/-- The value `compute_question_similarity` returns under a never-raising
similarity oracle. -/
def similarityResultPure (q : QuestionDict) (ctx : String)
    (f : String → String → ℚ) : RAGService.SimilarityResult :=
  let doc := preprocess_text ctx
  let qs := f doc (preprocess_text q.question)
  let as_ := f doc (preprocess_text q.correct_answer)
  let et := preprocess_text (q.explanation.getD "")
  let es := if et ≠ "" then f doc et else 0
  let avg := if et ≠ "" then (qs + as_ + es) / 3 else (qs + as_) / 2
  ⟨qs, as_, es, avg, decide (avg ≥ 6/10)⟩

/-- The pair relation violated exactly by a `'('` occurring before a `')'`:
a list is fixed by the paren-removal pass iff it is `Pairwise RChar`. -/
def RChar (a b : Char) : Prop := ¬(a = '(' ∧ b = ')')

/-- Characters unchanged by lowercasing. -/
def LowFixed (cs : List Char) : Prop := ∀ c ∈ cs, c.toLower = c

/-- Lists with no `[.,!?;:]` character. -/
def PunctFree (cs : List Char) : Prop := ∀ c ∈ cs, isPunct c = false

/-- Per-result form of the C2 invariant. -/
def ValidMatchesTotal (v : Verification) : Prop :=
  (∀ t : ℚ, v.total_score = some t → (v.is_valid = true ↔ t ≥ 6/10)) ∧
  (v.total_score = none → v.is_valid = false)

/-- The question used in the C5 counterexample: its explanation key is
present but the empty string. -/
def emptyExplQuestion : QuestionDict := ⟨"q", "a", some "", none⟩

/-- The similarity oracle used in the C5 counterexample: similarity is the
length of the compared text, so the empty explanation scores 0 while the
question and answer score 1. -/
def lenSim : String → String → ℚ := fun _ t => (t.length : ℚ)

theorem compute_question_similarity_okSim (q : QuestionDict) (ctx : String)
    (f : String → String → ℚ) :
    RAGService.compute_question_similarity q ctx (okSim f) =
      Except.ok (similarityResultPure q ctx f) := by
  unfold RAGService.compute_question_similarity similarityResultPure okSim
  rcases eq_or_ne (preprocess_text (q.explanation.getD "")) "" with h | h <;>
    simp [h, bind, Except.bind, pure, Except.pure]

theorem QG_verify_okSim_parsed (q : QuestionDict) (ctx : String)
    (f : String → String → ℚ) (j : JudgmentJson) :
    QuestionGenerator.verify_question q ctx (okSim f) (Except.ok (some j)) =
      Except.ok ⟨q.id.getD "",
        { embedding_similarity := some
            ⟨(similarityResultPure q ctx f).question_similarity,
             (similarityResultPure q ctx f).answer_similarity,
             (similarityResultPure q ctx f).explanation_similarity,
             (similarityResultPure q ctx f).average_similarity⟩,
          hallucination_check := some j.hallucination_check,
          quality_check := some j.quality_check,
          semantic_consistency := some j.semantic_consistency,
          total_score := some (fusedTotalScore j),
          is_valid := decide (fusedTotalScore j ≥ 6/10),
          error := none }⟩ := by
  simp only [QuestionGenerator.verify_question, compute_question_similarity_okSim,
    bind, Except.bind, pure, Except.pure]

theorem QG_verify_okSim_unparsed (q : QuestionDict) (ctx : String)
    (f : String → String → ℚ) :
    QuestionGenerator.verify_question q ctx (okSim f) (Except.ok none) =
      Except.ok ⟨q.id.getD "",
        { embedding_similarity := some
            ⟨(similarityResultPure q ctx f).question_similarity,
             (similarityResultPure q ctx f).answer_similarity,
             (similarityResultPure q ctx f).explanation_similarity,
             (similarityResultPure q ctx f).average_similarity⟩,
          hallucination_check := none,
          quality_check := none,
          semantic_consistency := none,
          total_score := some (similarityResultPure q ctx f).average_similarity,
          is_valid := (similarityResultPure q ctx f).is_valid,
          error := some "LLM 응답 파싱 실패" }⟩ := by
  simp only [QuestionGenerator.verify_question, compute_question_similarity_okSim,
    bind, Except.bind, pure, Except.pure]

theorem Main_verify_okSim_parsed (q : QuestionDict) (ctx : String)
    (f : String → String → ℚ) (j : JudgmentJson) (ex : String)
    (hex : q.explanation = some ex) :
    Main.verify_question_with_rag q ctx (okSim f) (Except.ok (some j)) =
      ⟨q.id.getD "",
        { embedding_similarity := some
            ⟨f ctx (preprocess_text q.question),
             f ctx (preprocess_text q.correct_answer),
             f ctx (preprocess_text ex),
             (f ctx (preprocess_text q.question) + f ctx (preprocess_text q.correct_answer)
               + f ctx (preprocess_text ex)) / 3⟩,
          hallucination_check := some j.hallucination_check,
          quality_check := some j.quality_check,
          semantic_consistency := some j.semantic_consistency,
          total_score := some (fusedTotalScore j),
          is_valid := decide (fusedTotalScore j ≥ 6/10),
          error := none }⟩ := by
  simp only [Main.verify_question_with_rag, hex, okSim, bind, Except.bind,
    pure, Except.pure]

theorem Main_verify_okSim_unparsed (q : QuestionDict) (ctx : String)
    (f : String → String → ℚ) (ex : String)
    (hex : q.explanation = some ex) :
    Main.verify_question_with_rag q ctx (okSim f) (Except.ok none) =
      ⟨q.id.getD "",
        { embedding_similarity := some
            ⟨f ctx (preprocess_text q.question),
             f ctx (preprocess_text q.correct_answer),
             f ctx (preprocess_text ex),
             (f ctx (preprocess_text q.question) + f ctx (preprocess_text q.correct_answer)
               + f ctx (preprocess_text ex)) / 3⟩,
          hallucination_check := none,
          quality_check := none,
          semantic_consistency := none,
          total_score := some ((f ctx (preprocess_text q.question)
            + f ctx (preprocess_text q.correct_answer) + f ctx (preprocess_text ex)) / 3),
          is_valid := decide ((f ctx (preprocess_text q.question)
            + f ctx (preprocess_text q.correct_answer) + f ctx (preprocess_text ex)) / 3 ≥ 6/10),
          error := some "LLM 응답 파싱 실패" }⟩ := by
  simp only [Main.verify_question_with_rag, hex, okSim, bind, Except.bind,
    pure, Except.pure]

theorem Main_verify_llm_error (q : QuestionDict) (ctx : String)
    (f : String → String → ℚ) (ex m : String)
    (hex : q.explanation = some ex) :
    Main.verify_question_with_rag q ctx (okSim f) (Except.error m) =
      ⟨q.id.getD "", errorVerification m⟩ := by
  simp only [Main.verify_question_with_rag, hex, okSim, bind, Except.bind,
    pure, Except.pure]

theorem Main_verify_sim_error (q : QuestionDict) (ctx : String)
    (sim : String → String → Except String ℚ)
    (llm : Except String (Option JudgmentJson)) (ex m : String)
    (hex : q.explanation = some ex)
    (hsim : sim ctx (preprocess_text q.question) = Except.error m) :
    Main.verify_question_with_rag q ctx sim llm =
      ⟨q.id.getD "", errorVerification m⟩ := by
  simp only [Main.verify_question_with_rag, hex, hsim, bind, Except.bind,
    pure, Except.pure]

theorem Main_verify_no_explanation (q : QuestionDict) (ctx : String)
    (sim : String → String → Except String ℚ)
    (llm : Except String (Option JudgmentJson))
    (hex : q.explanation = none) :
    Main.verify_question_with_rag q ctx sim llm =
      ⟨q.id.getD "", errorVerification "KeyError: explanation"⟩ := by
  simp only [Main.verify_question_with_rag, hex, bind, Except.bind,
    pure, Except.pure]

theorem Main_verify_sim2_error (q : QuestionDict) (ctx : String)
    (sim : String → String → Except String ℚ)
    (llm : Except String (Option JudgmentJson)) (ex m : String) (v1 : ℚ)
    (hex : q.explanation = some ex)
    (h1 : sim ctx (preprocess_text q.question) = Except.ok v1)
    (h2 : sim ctx (preprocess_text q.correct_answer) = Except.error m) :
    Main.verify_question_with_rag q ctx sim llm =
      ⟨q.id.getD "", errorVerification m⟩ := by
  simp only [Main.verify_question_with_rag, hex, h1, h2, bind, Except.bind,
    pure, Except.pure]

theorem Main_verify_sim3_error (q : QuestionDict) (ctx : String)
    (sim : String → String → Except String ℚ)
    (llm : Except String (Option JudgmentJson)) (ex m : String) (v1 v2 : ℚ)
    (hex : q.explanation = some ex)
    (h1 : sim ctx (preprocess_text q.question) = Except.ok v1)
    (h2 : sim ctx (preprocess_text q.correct_answer) = Except.ok v2)
    (h3 : sim ctx (preprocess_text ex) = Except.error m) :
    Main.verify_question_with_rag q ctx sim llm =
      ⟨q.id.getD "", errorVerification m⟩ := by
  simp only [Main.verify_question_with_rag, hex, h1, h2, h3, bind, Except.bind,
    pure, Except.pure]

theorem Main_verify_llm_error_any (q : QuestionDict) (ctx : String)
    (sim : String → String → Except String ℚ) (ex m : String) (v1 v2 v3 : ℚ)
    (hex : q.explanation = some ex)
    (h1 : sim ctx (preprocess_text q.question) = Except.ok v1)
    (h2 : sim ctx (preprocess_text q.correct_answer) = Except.ok v2)
    (h3 : sim ctx (preprocess_text ex) = Except.ok v3) :
    Main.verify_question_with_rag q ctx sim (Except.error m) =
      ⟨q.id.getD "", errorVerification m⟩ := by
  simp only [Main.verify_question_with_rag, hex, h1, h2, h3, bind, Except.bind,
    pure, Except.pure]

/-- C1: for every verification whose judgment response parses, both verifier
implementations fuse `total_score = 0.4*hallucination + 0.3*quality +
0.3*semantic_average` with `hallucination = 1.0` iff the result is `Y` and
quality `very_appropriate (매우적절) ↦ 1.0 / appropriate (적절) ↦ 0.7 /
otherwise (in particular inappropriate, 부적절) ↦ 0.3`, and
`is_valid ↔ total_score ≥ 0.6`; on hallucination `Y`, quality appropriate,
semantic average `0.9` the total is `0.88` and the question is valid. -/
theorem C1_fused_total_score :
    (∀ (q : QuestionDict) (ctx : String) (f : String → String → ℚ)
        (j : JudgmentJson) (ex : String),
      q.explanation = some ex →
      (Main.verify_question_with_rag q ctx (okSim f)
          (Except.ok (some j))).verification.total_score =
        some ((4/10) * (if j.hallucination_check.result = "Y" then 1 else 0)
          + (3/10) * (if j.quality_check.rating = "매우적절" then 1
              else if j.quality_check.rating = "적절" then 7/10 else 3/10)
          + (3/10) * j.semantic_consistency.average_score) ∧
      ((Main.verify_question_with_rag q ctx (okSim f)
          (Except.ok (some j))).verification.is_valid = true ↔
        fusedTotalScore j ≥ 6/10)) ∧
    (∀ (q : QuestionDict) (ctx : String) (f : String → String → ℚ)
        (j : JudgmentJson) (out : VerifyOutput),
      QuestionGenerator.verify_question q ctx (okSim f)
          (Except.ok (some j)) = Except.ok out →
      out.verification.total_score =
        some ((4/10) * (if j.hallucination_check.result = "Y" then 1 else 0)
          + (3/10) * (if j.quality_check.rating = "매우적절" then 1
              else if j.quality_check.rating = "적절" then 7/10 else 3/10)
          + (3/10) * j.semantic_consistency.average_score) ∧
      (out.verification.is_valid = true ↔ fusedTotalScore j ≥ 6/10)) ∧
    ((Main.verify_question_with_rag exampleQuestion "ctx" (okSim fun _ _ => 1)
        (Except.ok (some exampleJudgment))).verification.total_score
        = some (88/100) ∧
      (Main.verify_question_with_rag exampleQuestion "ctx" (okSim fun _ _ => 1)
        (Except.ok (some exampleJudgment))).verification.is_valid = true) := by
  have hfuse : ∀ j : JudgmentJson, fusedTotalScore j =
      (4/10) * (if j.hallucination_check.result = "Y" then 1 else 0)
        + (3/10) * (if j.quality_check.rating = "매우적절" then 1
            else if j.quality_check.rating = "적절" then 7/10 else 3/10)
        + (3/10) * j.semantic_consistency.average_score := by
    intro j
    simp only [fusedTotalScore, hallucinationScore, qualityScore]
    ring
  refine ⟨?_, ?_, ?_⟩
  · intro q ctx f j ex hex
    rw [Main_verify_okSim_parsed q ctx f j ex hex]
    exact ⟨by rw [hfuse], decide_eq_true_iff⟩
  · intro q ctx f j out hout
    rw [QG_verify_okSim_parsed] at hout
    injection hout with h
    subst h
    exact ⟨by rw [hfuse], decide_eq_true_iff⟩
  · rw [Main_verify_okSim_parsed exampleQuestion "ctx" (fun _ _ => 1)
      exampleJudgment "Plants convert light." rfl]
    have h1 : ("적절" : String) ≠ "매우적절" := by decide
    constructor
    · simp [fusedTotalScore, hallucinationScore, qualityScore, exampleJudgment, h1]
      norm_num
    · simp [fusedTotalScore, hallucinationScore, qualityScore, exampleJudgment, h1]
      norm_num

/-- Witness for C1: the fusion formula applied at the concrete spec example
(hallucination Y, quality appropriate, semantic average 0.9). -/
theorem C1_fused_total_score_witness :
    (Main.verify_question_with_rag exampleQuestion "ctx" (okSim fun _ _ => 1)
        (Except.ok (some exampleJudgment))).verification.total_score =
      some ((4/10) * (if exampleJudgment.hallucination_check.result = "Y" then 1 else 0)
        + (3/10) * (if exampleJudgment.quality_check.rating = "매우적절" then 1
            else if exampleJudgment.quality_check.rating = "적절" then 7/10 else 3/10)
        + (3/10) * exampleJudgment.semantic_consistency.average_score) :=
  (C1_fused_total_score.1 exampleQuestion "ctx" (fun _ _ => 1) exampleJudgment
    "Plants convert light." rfl).1


theorem compute_similarity_is_valid (q : QuestionDict) (ctx : String)
    (sim : String → String → Except String ℚ) (sr : RAGService.SimilarityResult)
    (hs : RAGService.compute_question_similarity q ctx sim = Except.ok sr) :
    sr.is_valid = decide (sr.average_similarity ≥ 6/10) := by
  unfold RAGService.compute_question_similarity at hs
  simp only [bind, Except.bind, pure, Except.pure] at hs
  split at hs
  · exact Except.noConfusion hs
  split at hs
  · exact Except.noConfusion hs
  split at hs
  · split at hs
    · exact Except.noConfusion hs
    · injection hs with h
      subst h
      rfl
  · injection hs with h
    subst h
    rfl


theorem validMatchesTotal_error (m : String) :
    ValidMatchesTotal (errorVerification m) := by
  constructor
  · intro t ht
    simp [errorVerification] at ht
  · intro _
    rfl

/-- C2 (counterexample): the catch-all error path of
`verify_question_with_rag` (a raising embedding call) produces a
verification dict with *no* `total_score` key at all, refuting the claim
that every produced result contains a `total_score`. -/
theorem C2_error_path_has_no_total_score :
    (Main.verify_question_with_rag exampleQuestion "ctx"
        (fun _ _ => Except.error "EmbeddingError: model unavailable")
        (Except.ok none)).verification.total_score = none ∧
    (Main.verify_question_with_rag exampleQuestion "ctx"
        (fun _ _ => Except.error "EmbeddingError: model unavailable")
        (Except.ok none)).verification.is_valid = false ∧
    (Main.verify_question_with_rag exampleQuestion "ctx"
        (fun _ _ => Except.error "EmbeddingError: model unavailable")
        (Except.ok none)).verification.error =
      some "EmbeddingError: model unavailable" := by
  refine ⟨rfl, rfl, rfl⟩

/-- C2 (amended): on the two paths that produce a `total_score` (judgment
parsed, and judgment-parse-failure fallback) the invariant
`is_valid ↔ total_score ≥ 0.6` holds exactly, for both verifier
implementations and arbitrary oracle behaviour; the catch-all error path of
`verify_question_with_rag` instead omits `total_score` and fixes
`is_valid = false` (and `QuestionGenerator.verify_question`, which has no
catch-all, always carries a `total_score` when it returns at all). -/
theorem C2_is_valid_iff_total_score_ge :
    (∀ (q : QuestionDict) (ctx : String)
        (sim : String → String → Except String ℚ)
        (llm : Except String (Option JudgmentJson)),
      ValidMatchesTotal (Main.verify_question_with_rag q ctx sim llm).verification) ∧
    (∀ (q : QuestionDict) (ctx : String)
        (sim : String → String → Except String ℚ)
        (llm : Except String (Option JudgmentJson)) (out : VerifyOutput),
      QuestionGenerator.verify_question q ctx sim llm = Except.ok out →
      ∃ t : ℚ, out.verification.total_score = some t ∧
        (out.verification.is_valid = true ↔ t ≥ 6/10)) := by
  constructor
  · intro q ctx sim llm
    unfold Main.verify_question_with_rag
    rcases hexp : q.explanation with _ | ex <;>
      simp only [hexp, bind, Except.bind, pure, Except.pure]
    · exact validMatchesTotal_error _
    rcases h1 : sim ctx (preprocess_text q.question) with m | v1 <;> simp only
    · exact validMatchesTotal_error _
    rcases h2 : sim ctx (preprocess_text q.correct_answer) with m | v2 <;> simp only
    · exact validMatchesTotal_error _
    rcases h3 : sim ctx (preprocess_text ex) with m | v3 <;> simp only
    · exact validMatchesTotal_error _
    rcases llm with m | j <;> simp only
    · exact validMatchesTotal_error _
    rcases j with _ | j <;> simp only
    · refine ⟨?_, ?_⟩
      · intro t ht
        injection ht with ht
        subst ht
        exact decide_eq_true_iff
      · intro ht
        simp at ht
    · refine ⟨?_, ?_⟩
      · intro t ht
        injection ht with ht
        subst ht
        exact decide_eq_true_iff
      · intro ht
        simp at ht
  · intro q ctx sim llm out hout
    unfold QuestionGenerator.verify_question at hout
    simp only [bind, Except.bind, pure, Except.pure] at hout
    rcases hs : RAGService.compute_question_similarity q ctx sim with m | sr <;>
      rw [hs] at hout <;> simp only at hout
    · exact Except.noConfusion hout
    rcases llm with m | j <;> simp only at hout
    · exact Except.noConfusion hout
    rcases j with _ | j <;> simp only at hout
    · injection hout with h
      subst h
      refine ⟨sr.average_similarity, rfl, ?_⟩
      rw [show (⟨q.id.getD "", _⟩ : VerifyOutput).verification.is_valid
        = sr.is_valid from rfl]
      rw [compute_similarity_is_valid q ctx sim sr hs]
      exact decide_eq_true_iff
    · injection hout with h
      subst h
      exact ⟨fusedTotalScore j, rfl, decide_eq_true_iff⟩

/-- Witness for C2: the amended invariant applied at the concrete fallback
result with embedding average 1. -/
theorem C2_is_valid_iff_total_score_ge_witness :
    (Main.verify_question_with_rag exampleQuestion "ctx" (okSim fun _ _ => 1)
        (Except.ok none)).verification.total_score = some ((1 + 1 + 1) / 3) ∧
    ((Main.verify_question_with_rag exampleQuestion "ctx" (okSim fun _ _ => 1)
        (Except.ok none)).verification.is_valid = true ↔ ((1:ℚ) + 1 + 1) / 3 ≥ 6/10) :=
  ⟨by rw [Main_verify_okSim_unparsed exampleQuestion "ctx" (fun _ _ => 1)
      "Plants convert light." rfl],
   (C2_is_valid_iff_total_score_ge.1 exampleQuestion "ctx" (okSim fun _ _ => 1)
      (Except.ok none)).1 ((1 + 1 + 1) / 3)
      (by rw [Main_verify_okSim_unparsed exampleQuestion "ctx" (fun _ _ => 1)
        "Plants convert light." rfl])⟩

/-- C3 (counterexample): `QuestionGenerator.verify_question` has no
catch-all handler, so an exception raised by the embedding call while
computing the first signal propagates to the caller instead of being
converted into a `VerificationResult`. -/
theorem C3_generator_verify_propagates :
    QuestionGenerator.verify_question exampleQuestion "ctx"
        (fun _ _ => Except.error "EmbeddingError: model unavailable")
        (Except.ok none) =
      Except.error "EmbeddingError: model unavailable" := rfl

/-- C3 (amended): `main.py`'s `verify_question_with_rag` never propagates —
any exception raised while computing either signal (the `KeyError` on a
missing explanation key, a raising embedding call at the question, answer
or explanation text, or a raising judgment call) is converted into a
returned `VerificationResult` with `is_valid = false` and an `error` field
(while `QuestionGenerator.verify_question` lacks the catch-all and
propagates, see the counterexample). -/
theorem C3_main_verify_never_propagates :
    (∀ (q : QuestionDict) (ctx : String)
        (sim : String → String → Except String ℚ)
        (llm : Except String (Option JudgmentJson)),
      q.explanation = none →
      (Main.verify_question_with_rag q ctx sim llm).verification.is_valid = false ∧
      (Main.verify_question_with_rag q ctx sim llm).verification.error =
        some "KeyError: explanation") ∧
    (∀ (q : QuestionDict) (ctx : String)
        (sim : String → String → Except String ℚ)
        (llm : Except String (Option JudgmentJson)) (ex m : String),
      q.explanation = some ex →
      sim ctx (preprocess_text q.question) = Except.error m →
      (Main.verify_question_with_rag q ctx sim llm).verification.is_valid = false ∧
      (Main.verify_question_with_rag q ctx sim llm).verification.error = some m) ∧
    (∀ (q : QuestionDict) (ctx : String)
        (sim : String → String → Except String ℚ)
        (llm : Except String (Option JudgmentJson)) (ex m : String) (v1 : ℚ),
      q.explanation = some ex →
      sim ctx (preprocess_text q.question) = Except.ok v1 →
      sim ctx (preprocess_text q.correct_answer) = Except.error m →
      (Main.verify_question_with_rag q ctx sim llm).verification.is_valid = false ∧
      (Main.verify_question_with_rag q ctx sim llm).verification.error = some m) ∧
    (∀ (q : QuestionDict) (ctx : String)
        (sim : String → String → Except String ℚ)
        (llm : Except String (Option JudgmentJson)) (ex m : String) (v1 v2 : ℚ),
      q.explanation = some ex →
      sim ctx (preprocess_text q.question) = Except.ok v1 →
      sim ctx (preprocess_text q.correct_answer) = Except.ok v2 →
      sim ctx (preprocess_text ex) = Except.error m →
      (Main.verify_question_with_rag q ctx sim llm).verification.is_valid = false ∧
      (Main.verify_question_with_rag q ctx sim llm).verification.error = some m) ∧
    (∀ (q : QuestionDict) (ctx : String)
        (sim : String → String → Except String ℚ) (ex m : String) (v1 v2 v3 : ℚ),
      q.explanation = some ex →
      sim ctx (preprocess_text q.question) = Except.ok v1 →
      sim ctx (preprocess_text q.correct_answer) = Except.ok v2 →
      sim ctx (preprocess_text ex) = Except.ok v3 →
      (Main.verify_question_with_rag q ctx sim
          (Except.error m)).verification.is_valid = false ∧
      (Main.verify_question_with_rag q ctx sim
          (Except.error m)).verification.error = some m) := by
  refine ⟨?_, ?_, ?_, ?_, ?_⟩
  · intro q ctx sim llm hex
    rw [Main_verify_no_explanation q ctx sim llm hex]
    exact ⟨rfl, rfl⟩
  · intro q ctx sim llm ex m hex h1
    rw [Main_verify_sim_error q ctx sim llm ex m hex h1]
    exact ⟨rfl, rfl⟩
  · intro q ctx sim llm ex m v1 hex h1 h2
    rw [Main_verify_sim2_error q ctx sim llm ex m v1 hex h1 h2]
    exact ⟨rfl, rfl⟩
  · intro q ctx sim llm ex m v1 v2 hex h1 h2 h3
    rw [Main_verify_sim3_error q ctx sim llm ex m v1 v2 hex h1 h2 h3]
    exact ⟨rfl, rfl⟩
  · intro q ctx sim ex m v1 v2 v3 hex h1 h2 h3
    rw [Main_verify_llm_error_any q ctx sim ex m v1 v2 v3 hex h1 h2 h3]
    exact ⟨rfl, rfl⟩

/-- Witness for C3: the conversion applied at a concrete raising embedding
oracle. -/
theorem C3_main_verify_never_propagates_witness :
    (Main.verify_question_with_rag exampleQuestion "ctx"
        (fun _ _ => Except.error "EmbeddingError")
        (Except.ok none)).verification.is_valid = false ∧
    (Main.verify_question_with_rag exampleQuestion "ctx"
        (fun _ _ => Except.error "EmbeddingError")
        (Except.ok none)).verification.error = some "EmbeddingError" :=
  C3_main_verify_never_propagates.2.1 exampleQuestion "ctx"
    (fun _ _ => Except.error "EmbeddingError") (Except.ok none)
    "Plants convert light." "EmbeddingError" rfl rfl

/-- C4: when the judgment response fails to parse, both verifiers fall back
to the embedding signal alone: `total_score` is the embedding similarity
average, `is_valid ↔ average ≥ 0.6`, and an error marker is attached; with
all component similarities `0.55` the total is `0.55`, the question is
invalid, and the error field is present. -/
theorem C4_parse_failure_fallback :
    (∀ (q : QuestionDict) (ctx : String) (f : String → String → ℚ) (ex : String),
      q.explanation = some ex →
      (Main.verify_question_with_rag q ctx (okSim f)
          (Except.ok none)).verification.total_score =
        some ((f ctx (preprocess_text q.question)
          + f ctx (preprocess_text q.correct_answer)
          + f ctx (preprocess_text ex)) / 3) ∧
      ((Main.verify_question_with_rag q ctx (okSim f)
          (Except.ok none)).verification.is_valid = true ↔
        (f ctx (preprocess_text q.question)
          + f ctx (preprocess_text q.correct_answer)
          + f ctx (preprocess_text ex)) / 3 ≥ 6/10) ∧
      (Main.verify_question_with_rag q ctx (okSim f)
          (Except.ok none)).verification.error = some "LLM 응답 파싱 실패") ∧
    (∀ (q : QuestionDict) (ctx : String) (f : String → String → ℚ)
        (out : VerifyOutput),
      QuestionGenerator.verify_question q ctx (okSim f)
          (Except.ok none) = Except.ok out →
      out.verification.total_score =
        some (similarityResultPure q ctx f).average_similarity ∧
      (out.verification.is_valid = true ↔
        (similarityResultPure q ctx f).average_similarity ≥ 6/10) ∧
      out.verification.error = some "LLM 응답 파싱 실패") ∧
    ((Main.verify_question_with_rag exampleQuestion "ctx" (okSim fun _ _ => 11/20)
        (Except.ok none)).verification.total_score = some (11/20) ∧
      (Main.verify_question_with_rag exampleQuestion "ctx" (okSim fun _ _ => 11/20)
        (Except.ok none)).verification.is_valid = false ∧
      (Main.verify_question_with_rag exampleQuestion "ctx" (okSim fun _ _ => 11/20)
        (Except.ok none)).verification.error = some "LLM 응답 파싱 실패") := by
  refine ⟨?_, ?_, ?_⟩
  · intro q ctx f ex hex
    rw [Main_verify_okSim_unparsed q ctx f ex hex]
    exact ⟨rfl, decide_eq_true_iff, rfl⟩
  · intro q ctx f out hout
    rw [QG_verify_okSim_unparsed] at hout
    injection hout with h
    subst h
    refine ⟨rfl, ?_, rfl⟩
    have hv : (similarityResultPure q ctx f).is_valid =
        decide ((similarityResultPure q ctx f).average_similarity ≥ 6/10) :=
      compute_similarity_is_valid q ctx (okSim f) _
        (compute_question_similarity_okSim q ctx f)
    rw [show (⟨q.id.getD "", _⟩ : VerifyOutput).verification.is_valid
      = (similarityResultPure q ctx f).is_valid from rfl, hv]
    exact decide_eq_true_iff
  · rw [Main_verify_okSim_unparsed exampleQuestion "ctx" (fun _ _ => 11/20)
      "Plants convert light." rfl]
    refine ⟨?_, ?_, rfl⟩
    · norm_num
    · simp only
      norm_num

/-- Witness for C4: the fallback formula applied at component similarity
`0.55` on the concrete question. -/
theorem C4_parse_failure_fallback_witness :
    (Main.verify_question_with_rag exampleQuestion "ctx" (okSim fun _ _ => 11/20)
        (Except.ok none)).verification.total_score =
      some ((11/20 + 11/20 + 11/20) / 3) ∧
    (Main.verify_question_with_rag exampleQuestion "ctx" (okSim fun _ _ => 11/20)
        (Except.ok none)).verification.error = some "LLM 응답 파싱 실패" :=
  ⟨(C4_parse_failure_fallback.1 exampleQuestion "ctx" (fun _ _ => 11/20)
      "Plants convert light." rfl).1,
   (C4_parse_failure_fallback.1 exampleQuestion "ctx" (fun _ _ => 11/20)
      "Plants convert light." rfl).2.2⟩


/-- C5 (counterexample): with an empty explanation, `main.py`'s
`verify_question_with_rag` still averages three components — the
context-explanation similarity (0 here) is included — so the reported
average is `2/3`, not the 2-way mean `1` of the question and answer
similarities. -/
theorem C5_main_averages_three_way_on_empty_explanation :
    (Main.verify_question_with_rag emptyExplQuestion "c" (okSim lenSim)
        (Except.ok none)).verification.embedding_similarity =
      some ⟨1, 1, 0, 2/3⟩ ∧
    ((2:ℚ)/3) ≠ (1 + 1) / 2 := by
  constructor
  · rw [Main_verify_okSim_unparsed emptyExplQuestion "c" lenSim "" rfl]
    have hq : preprocess_text emptyExplQuestion.question = "q" := by decide
    have ha : preprocess_text emptyExplQuestion.correct_answer = "a" := by decide
    have he : preprocess_text "" = "" := by decide
    simp only [hq, ha, he]
    have l1 : lenSim "c" "q" = 1 := by
      unfold lenSim
      norm_num [String.length]
    have l2 : lenSim "c" "a" = 1 := by
      unfold lenSim
      norm_num [String.length]
    have l3 : lenSim "c" "" = 0 := by
      unfold lenSim
      norm_num [String.length]
    rw [l1, l2, l3]
    norm_num
  · norm_num

/-- C5 (amended): `RAGService.compute_question_similarity` averages 2-way
when the (preprocessed) explanation is empty and 3-way when it is
non-empty; but `main.py`'s `verify_question_with_rag` always averages all
three components, including the context-explanation similarity, regardless
of whether the explanation is empty. -/
theorem C5_embedding_average_components :
    (∀ (q : QuestionDict) (ctx : String) (f : String → String → ℚ)
        (sr : RAGService.SimilarityResult),
      RAGService.compute_question_similarity q ctx (okSim f) = Except.ok sr →
      (preprocess_text (q.explanation.getD "") = "" →
        sr.average_similarity =
          (sr.question_similarity + sr.answer_similarity) / 2) ∧
      (preprocess_text (q.explanation.getD "") ≠ "" →
        sr.average_similarity =
          (sr.question_similarity + sr.answer_similarity
            + sr.explanation_similarity) / 3)) ∧
    (∀ (q : QuestionDict) (ctx : String) (f : String → String → ℚ) (ex : String)
        (jopt : Option JudgmentJson),
      q.explanation = some ex →
      (Main.verify_question_with_rag q ctx (okSim f)
          (Except.ok jopt)).verification.embedding_similarity =
        some ⟨f ctx (preprocess_text q.question),
              f ctx (preprocess_text q.correct_answer),
              f ctx (preprocess_text ex),
              (f ctx (preprocess_text q.question)
                + f ctx (preprocess_text q.correct_answer)
                + f ctx (preprocess_text ex)) / 3⟩) := by
  constructor
  · intro q ctx f sr hs
    rw [compute_question_similarity_okSim] at hs
    injection hs with h
    subst h
    constructor
    · intro het
      simp [similarityResultPure, het]
    · intro het
      simp [similarityResultPure, het]
  · intro q ctx f ex jopt hex
    rcases jopt with _ | j
    · rw [Main_verify_okSim_unparsed q ctx f ex hex]
    · rw [Main_verify_okSim_parsed q ctx f j ex hex]

/-- Witness for C5: a non-empty explanation averaged 3-way by the RAG
service, and the `main.py` 3-way average at the same inputs. -/
theorem C5_embedding_average_components_witness :
    (similarityResultPure exampleQuestion "ctx" (fun _ _ => 1)).average_similarity =
      ((similarityResultPure exampleQuestion "ctx" (fun _ _ => 1)).question_similarity
        + (similarityResultPure exampleQuestion "ctx" (fun _ _ => 1)).answer_similarity
        + (similarityResultPure exampleQuestion "ctx" (fun _ _ => 1)).explanation_similarity) / 3 ∧
    (Main.verify_question_with_rag exampleQuestion "ctx" (okSim fun _ _ => 1)
        (Except.ok none)).verification.embedding_similarity =
      some ⟨1, 1, 1, (1 + 1 + 1) / 3⟩ :=
  ⟨(C5_embedding_average_components.1 exampleQuestion "ctx" (fun _ _ => 1)
      (similarityResultPure exampleQuestion "ctx" (fun _ _ => 1))
      (compute_question_similarity_okSim exampleQuestion "ctx" (fun _ _ => 1))).2
    (by decide),
   C5_embedding_average_components.2 exampleQuestion "ctx" (fun _ _ => 1)
    "Plants convert light." none rfl⟩

/-- C6: both generation implementations make one model call when the first
response parses, issue exactly one retry when it does not, fail fatally
with the generation-failed error when the retry also fails to parse, and
never make more than two generation-model calls (independently of the
requested batch size, which does not appear in the call count). -/
theorem C6_single_retry_then_fatal :
    (∀ (r1 r2 : Option (List QuestionDict))
        (verify : QuestionDict → VerifyOutput),
      (Main.generate_questions r1 r2 verify).2 ≤ 2 ∧
      (∀ qs, r1 = some qs → Main.generate_questions r1 r2 verify =
        (Except.ok (qs.filter fun q => (verify q).verification.is_valid), 1)) ∧
      (∀ qs, r1 = none → r2 = some qs → Main.generate_questions r1 r2 verify =
        (Except.ok (qs.filter fun q => (verify q).verification.is_valid), 2)) ∧
      (r1 = none → r2 = none → Main.generate_questions r1 r2 verify =
        (Except.error "문제 생성 실패: JSON 파싱 오류", 2))) ∧
    (∀ (r1 r2 : Option (List QuestionDict))
        (verify : QuestionDict → Except String VerifyOutput),
      (QuestionGenerator.generate_questions r1 r2 verify).2 ≤ 2 ∧
      (∀ qs, r1 = some qs →
        (QuestionGenerator.generate_questions r1 r2 verify).2 = 1) ∧
      (∀ qs, r1 = none → r2 = some qs →
        (QuestionGenerator.generate_questions r1 r2 verify).2 = 2) ∧
      (r1 = none → r2 = none → QuestionGenerator.generate_questions r1 r2 verify =
        (Except.error "문제 생성 실패: JSON 파싱 오류", 2))) := by
  constructor
  · intro r1 r2 verify
    rcases r1 with _ | qs1
    · rcases r2 with _ | qs2
      · exact ⟨by simp [Main.generate_questions],
          fun qs h => Option.noConfusion h,
          fun qs _ h => Option.noConfusion h,
          fun _ _ => rfl⟩
      · refine ⟨by simp [Main.generate_questions],
          fun qs h => Option.noConfusion h, ?_, fun _ h => Option.noConfusion h⟩
        intro qs _ h
        injection h with h
        subst h
        rfl
    · refine ⟨by simp [Main.generate_questions], ?_,
        fun qs h _ => Option.noConfusion h, fun h _ => Option.noConfusion h⟩
      intro qs h
      injection h with h
      subst h
      rfl
  · intro r1 r2 verify
    rcases r1 with _ | qs1
    · rcases r2 with _ | qs2
      · exact ⟨by simp [QuestionGenerator.generate_questions],
          fun qs h => Option.noConfusion h,
          fun qs _ h => Option.noConfusion h,
          fun _ _ => rfl⟩
      · exact ⟨by simp [QuestionGenerator.generate_questions],
          fun qs h => Option.noConfusion h, fun qs _ _ => rfl,
          fun _ h => Option.noConfusion h⟩
    · exact ⟨by simp [QuestionGenerator.generate_questions], fun qs _ => rfl,
        fun qs h _ => Option.noConfusion h, fun h _ => Option.noConfusion h⟩

/-- Witness for C6: both parses fail on a concrete run — the endpoint fails
fatally after exactly two calls. -/
theorem C6_single_retry_then_fatal_witness :
    Main.generate_questions none none (fun _ => ⟨"", errorVerification "e"⟩) =
      (Except.error "문제 생성 실패: JSON 파싱 오류", 2) :=
  (C6_single_retry_then_fatal.1 none none
    (fun _ => ⟨"", errorVerification "e"⟩)).2.2.2 rfl rfl

/-- C8: grading follows the exact-match and similarity-threshold rules:
normalized equality gives `true/1.0`; a short-answer mismatch is graded by
similarity (`≥ 0.8 ↦ true/1.0`, `[0.6, 0.8) ↦ partial/0.5`,
`< 0.6 ↦ false/0.0`) with the similarity attached exactly when the outcome
is not an exact/true match; a multiple-choice mismatch is `false/0.0` with
no similarity attached. -/
theorem C8_grading_rules (a : AnswerSubmission) (f : String → String → ℚ) :
    (Main.normalize_answer (pyStrip a.user_answer) =
        Main.normalize_answer (pyStrip a.correct_answer) →
      (Main.check_answer a f).is_correct = Correctness.correct ∧
      (Main.check_answer a f).score = 1 ∧
      (Main.check_answer a f).similarity = none) ∧
    (a.question_type.getD "unknown" = "short_answer" →
      Main.normalize_answer (pyStrip a.user_answer) ≠
        Main.normalize_answer (pyStrip a.correct_answer) →
      (f (Main.normalize_answer (pyStrip a.user_answer))
          (Main.normalize_answer (pyStrip a.correct_answer)) ≥ 8/10 →
        (Main.check_answer a f).is_correct = Correctness.correct ∧
        (Main.check_answer a f).score = 1 ∧
        (Main.check_answer a f).similarity = none) ∧
      (6/10 ≤ f (Main.normalize_answer (pyStrip a.user_answer))
          (Main.normalize_answer (pyStrip a.correct_answer)) →
        f (Main.normalize_answer (pyStrip a.user_answer))
          (Main.normalize_answer (pyStrip a.correct_answer)) < 8/10 →
        (Main.check_answer a f).is_correct = Correctness.half ∧
        (Main.check_answer a f).score = 1/2 ∧
        (Main.check_answer a f).similarity =
          some (f (Main.normalize_answer (pyStrip a.user_answer))
            (Main.normalize_answer (pyStrip a.correct_answer)))) ∧
      (f (Main.normalize_answer (pyStrip a.user_answer))
          (Main.normalize_answer (pyStrip a.correct_answer)) < 6/10 →
        (Main.check_answer a f).is_correct = Correctness.wrong ∧
        (Main.check_answer a f).score = 0 ∧
        (Main.check_answer a f).similarity =
          some (f (Main.normalize_answer (pyStrip a.user_answer))
            (Main.normalize_answer (pyStrip a.correct_answer))))) ∧
    (a.question_type.getD "unknown" = "multiple_choice" →
      Main.normalize_answer (pyStrip a.user_answer) ≠
        Main.normalize_answer (pyStrip a.correct_answer) →
      (Main.check_answer a f).is_correct = Correctness.wrong ∧
      (Main.check_answer a f).score = 0 ∧
      (Main.check_answer a f).similarity = none) := by
  refine ⟨?_, ?_, ?_⟩
  · intro h
    simp [Main.check_answer, h]
  · intro hqt hne
    refine ⟨?_, ?_, ?_⟩
    · intro hs
      simp [Main.check_answer, hqt, hne, if_neg hne, hs]
    · intro h6 h8
      have h8' : ¬ (f (Main.normalize_answer (pyStrip a.user_answer))
          (Main.normalize_answer (pyStrip a.correct_answer)) ≥ 8/10) :=
        not_le.mpr h8
      simp [Main.check_answer, hqt, hne, h8', h6]
    · intro h6
      have h8' : ¬ (f (Main.normalize_answer (pyStrip a.user_answer))
          (Main.normalize_answer (pyStrip a.correct_answer)) ≥ 8/10) := by
        intro h
        have : (6:ℚ)/10 < 8/10 := by norm_num
        linarith
      have h6' : ¬ (f (Main.normalize_answer (pyStrip a.user_answer))
          (Main.normalize_answer (pyStrip a.correct_answer)) ≥ 6/10) :=
        not_le.mpr h6
      simp [Main.check_answer, hqt, hne, h8', h6']
  · intro hqt hne
    have hq' : a.question_type.getD "unknown" ≠ "short_answer" := by
      rw [hqt]
      decide
    simp [Main.check_answer, hq', hne]

/-- Witness for C8: a concrete short-answer mismatch with similarity 0.65 is
graded partial with score 0.5 and the similarity attached. -/
theorem C8_grading_rules_witness :
    (Main.check_answer ⟨"Q", "dog", "cat", some "short_answer"⟩
        (fun _ _ => 13/20)).is_correct = Correctness.half ∧
    (Main.check_answer ⟨"Q", "dog", "cat", some "short_answer"⟩
        (fun _ _ => 13/20)).score = 1/2 ∧
    (Main.check_answer ⟨"Q", "dog", "cat", some "short_answer"⟩
        (fun _ _ => 13/20)).similarity = some (13/20) :=
  ((C8_grading_rules ⟨"Q", "dog", "cat", some "short_answer"⟩
      (fun _ _ => 13/20)).2.1 rfl (by decide)).2.1 (by norm_num) (by norm_num)

/-- C10: `"(anything)"` (a pure parenthetical) and `"???"` (pure
punctuation) are distinct non-empty answers that both normalize to the
empty string, so grading counts them as an exact match — `true`, score 1.0,
no similarity — for every `question_type`. -/
theorem C10_distinct_answers_collapse_to_empty :
    Main.normalize_answer "(anything)" = "" ∧
    Main.normalize_answer "???" = "" ∧
    ("(anything)" : String) ≠ "???" ∧
    ("(anything)" : String) ≠ "" ∧
    ("???" : String) ≠ "" ∧
    (∀ (qt : Option String) (f : String → String → ℚ),
      Main.check_answer ⟨"Q", "(anything)", "???", qt⟩ f =
        ⟨"Q", "(anything)", "???", Correctness.correct, 1, none⟩) := by
  refine ⟨by decide, by decide, by decide, by decide, by decide, ?_⟩
  intro qt f
  have h : Main.normalize_answer (pyStrip "(anything)") =
      Main.normalize_answer (pyStrip "???") := by decide
  simp [Main.check_answer, h]
  decide

theorem length_insertDescBySim (x : String × ℚ) (l : List (String × ℚ)) :
    (RAGService.insertDescBySim x l).length = l.length + 1 := by
  induction l with
  | nil => rfl
  | cons y ys ih =>
    unfold RAGService.insertDescBySim
    split
    · simp [ih]
    · rfl

theorem length_sortDescBySim (l : List (String × ℚ)) :
    (RAGService.sortDescBySim l).length = l.length := by
  induction l with
  | nil => rfl
  | cons x xs ih =>
    unfold RAGService.sortDescBySim
    rw [length_insertDescBySim, ih]
    rfl

theorem chunkList_nil (chunk_size : Nat) (h : 1 ≤ chunk_size / 2) :
    RAGService.chunkList [] chunk_size = [] := by
  unfold RAGService.chunkList
  have h0 : (chunk_size / 2 - 1) / (chunk_size / 2) = 0 :=
    Nat.div_eq_of_lt (by omega)
  simp [h0]

/-- C9 (counterexample): the claim quantifies over every `chunk_size` and
promises the empty sequence on an empty document, but with `chunk_size = 1`
the step `chunk_size // 2` is `0` and Python's `range` raises `ValueError`
before the emptiness check, so the retriever raises instead of returning
`[]`. -/
theorem C9_chunk_size_one_raises :
    RAGService.extract_relevant_context "q" "" 1 3 (fun _ _ => 0) =
      Except.error "ValueError: range() arg 3 must not be zero" ∧
    ∀ r : List String,
      RAGService.extract_relevant_context "q" "" 1 3 (fun _ _ => 0) ≠
        Except.ok r := by
  refine ⟨rfl, ?_⟩
  intro r h
  exact Except.noConfusion h

/-- C9 (amended): for every `chunk_size ≥ 2` the retriever succeeds: it
splits the document's words into windows of `chunk_size` words starting at
the multiples of `⌊chunk_size/2⌋` below the word count (so any 1000-word
document with `chunk_size = 500` yields windows at word offsets
0, 250, 500, 750, the last truncated), returns the empty sequence when the
document has no words, and returns `min top_k (number of chunks)` chunks —
never more than `top_k`; for `chunk_size ≤ 1` it raises `ValueError`. -/
theorem C9_chunking_windows :
    (∀ (query document : String) (chunk_size top_k : Nat)
        (f : String → String → ℚ),
      2 ≤ chunk_size →
      ∃ r, RAGService.extract_relevant_context query document chunk_size top_k f =
          Except.ok r ∧
        r.length = min top_k
          (RAGService.chunkList ((splitWs document.data).map
            (fun w => String.mk w)) chunk_size).length ∧
        (splitWs document.data = [] → r = [])) ∧
    (∀ (words : List String), words.length = 1000 →
      RAGService.chunkList words 500 =
        [String.intercalate " " (words.take 500),
         String.intercalate " " ((words.drop 250).take 500),
         String.intercalate " " ((words.drop 500).take 500),
         String.intercalate " " ((words.drop 750).take 500)]) ∧
    (∀ (chunk_size top_k : Nat) (query document : String)
        (f : String → String → ℚ),
      chunk_size ≤ 1 →
      RAGService.extract_relevant_context query document chunk_size top_k f =
        Except.error "ValueError: range() arg 3 must not be zero") := by
  refine ⟨?_, ?_, ?_⟩
  · intro query document chunk_size top_k f hcs
    have hstep : ¬ (chunk_size / 2 = 0) := by omega
    unfold RAGService.extract_relevant_context
    rw [if_neg hstep]
    dsimp only
    cases hch : (RAGService.chunkList ((splitWs document.data).map
        (fun w => String.mk w)) chunk_size).isEmpty with
    | true =>
      rw [if_pos rfl]
      refine ⟨[], rfl, ?_, fun _ => rfl⟩
      cases hcl : RAGService.chunkList ((splitWs document.data).map
          (fun w => String.mk w)) chunk_size with
      | nil => simp [hcl]
      | cons a as =>
        rw [hcl] at hch
        simp at hch
    | false =>
      rw [if_neg Bool.false_ne_true]
      refine ⟨_, rfl, ?_, ?_⟩
      · rw [List.length_map, List.length_take, length_sortDescBySim,
          List.length_map]
      · intro hw
        exfalso
        rw [hw] at hch
        simp only [List.map_nil] at hch
        rw [chunkList_nil chunk_size (by omega)] at hch
        simp at hch
  · intro words hw
    unfold RAGService.chunkList
    rw [hw]
    norm_num
    rfl
  · intro chunk_size top_k query document f hcs
    have hstep : chunk_size / 2 = 0 := by omega
    unfold RAGService.extract_relevant_context
    rw [if_pos hstep]

/-- Witness for C9: a concrete two-word document with `chunk_size = 2`,
`top_k = 3` returns both chunks (clamped below `top_k`). -/
theorem C9_chunking_windows_witness :
    ∃ r, RAGService.extract_relevant_context "q" "alpha beta" 2 3
        (fun _ _ => 0) = Except.ok r ∧
      r.length = min 3
        (RAGService.chunkList ((splitWs ("alpha beta" : String).data).map
          (fun w => String.mk w)) 2).length ∧
      (splitWs ("alpha beta" : String).data = [] → r = []) :=
  C9_chunking_windows.1 "q" "alpha beta" 2 3 (fun _ _ => 0) (by norm_num)

theorem toLower_idem (c : Char) : c.toLower.toLower = c.toLower := by
  unfold Char.toLower
  by_cases h : c.toNat ≥ 65 ∧ c.toNat ≤ 90
  · rw [if_pos h]
    have hv : (c.toNat + 32).isValidChar := Or.inl (by omega)
    have ht : (Char.ofNat (c.toNat + 32)).toNat = c.toNat + 32 := by
      unfold Char.ofNat
      rw [dif_pos hv]
      rfl
    rw [if_neg (by rw [ht]; omega)]
  · rw [if_neg h, if_neg h]

theorem splitWsAux_cons_sp_nil {c : Char} (cs : List Char)
    (h : isPySpace c = true) :
    splitWsAux (c :: cs) [] = splitWsAux cs [] := by
  simp [splitWsAux, h]

theorem splitWsAux_cons_sp_cons {c : Char} (cs : List Char) (x : Char)
    (xs : List Char) (h : isPySpace c = true) :
    splitWsAux (c :: cs) (x :: xs) = (x :: xs).reverse :: splitWsAux cs [] := by
  simp [splitWsAux, h]

theorem splitWsAux_cons_nsp {c : Char} (cs cur : List Char)
    (h : isPySpace c = false) :
    splitWsAux (c :: cs) cur = splitWsAux cs (c :: cur) := by
  simp [splitWsAux, h]

theorem splitWsAux_nil_cons (x : Char) (xs : List Char) :
    splitWsAux [] (x :: xs) = [(x :: xs).reverse] := rfl

theorem splitWsAux_words_wf : ∀ (cs cur : List Char),
    (∀ c ∈ cur, isPySpace c = false) →
    ∀ w ∈ splitWsAux cs cur, w ≠ [] ∧ ∀ c ∈ w, isPySpace c = false := by
  intro cs
  induction cs with
  | nil =>
    intro cur hcur w hw
    cases cur with
    | nil => simp [splitWsAux] at hw
    | cons x xs =>
      rw [splitWsAux_nil_cons, List.mem_singleton] at hw
      subst hw
      exact ⟨by simp, fun c hc => hcur c (List.mem_reverse.mp hc)⟩
  | cons c cs ih =>
    intro cur hcur w hw
    cases hsp : isPySpace c with
    | true =>
      cases cur with
      | nil =>
        rw [splitWsAux_cons_sp_nil cs hsp] at hw
        exact ih [] (by simp) w hw
      | cons x xs =>
        rw [splitWsAux_cons_sp_cons cs x xs hsp, List.mem_cons] at hw
        rcases hw with hw | hw
        · subst hw
          exact ⟨by simp, fun d hd => hcur d (List.mem_reverse.mp hd)⟩
        · exact ih [] (by simp) w hw
    | false =>
      rw [splitWsAux_cons_nsp cs cur hsp] at hw
      refine ih (c :: cur) ?_ w hw
      intro d hd
      rcases List.mem_cons.mp hd with h | h
      · subst h
        exact hsp
      · exact hcur d h

theorem splitWsAux_join_sublist : ∀ (cs cur : List Char),
    List.Sublist (splitWsAux cs cur).flatten (cur.reverse ++ cs) := by
  intro cs
  induction cs with
  | nil =>
    intro cur
    cases cur with
    | nil => simp [splitWsAux]
    | cons x xs =>
      rw [splitWsAux_nil_cons]
      simp
  | cons c cs ih =>
    intro cur
    cases hsp : isPySpace c with
    | true =>
      cases cur with
      | nil =>
        rw [splitWsAux_cons_sp_nil cs hsp]
        have h := ih []
        simp only [List.reverse_nil, List.nil_append] at h ⊢
        exact h.trans (List.sublist_cons_self c cs)
      | cons x xs =>
        rw [splitWsAux_cons_sp_cons cs x xs hsp]
        rw [List.flatten_cons]
        have h := ih []
        simp only [List.reverse_nil, List.nil_append] at h
        exact List.Sublist.append_left (h.trans (List.sublist_cons_self c cs)) _
    | false =>
      rw [splitWsAux_cons_nsp cs cur hsp]
      have h := ih (c :: cur)
      simpa [List.append_assoc] using h

theorem mem_joinSpace : ∀ (ws : List (List Char)) (d : Char),
    d ∈ joinSpace ws → d = ' ' ∨ d ∈ ws.flatten := by
  intro ws
  induction ws with
  | nil => intro d hd; simp [joinSpace] at hd
  | cons w ws ih =>
    intro d hd
    cases ws with
    | nil =>
      simp only [joinSpace] at hd
      right
      simp [hd]
    | cons v ws' =>
      simp only [joinSpace, List.mem_append, List.mem_cons] at hd
      rcases hd with hd | hd | hd
      · right; simp [hd]
      · exact Or.inl hd
      · rcases ih d hd with h | h
        · exact Or.inl h
        · right
          simp only [List.flatten_cons, List.mem_append]
          right
          simpa using h

theorem splitWsAux_append : ∀ (w cs cur : List Char),
    (∀ c ∈ w, isPySpace c = false) →
    splitWsAux (w ++ cs) cur = splitWsAux cs (w.reverse ++ cur) := by
  intro w
  induction w with
  | nil => intro cs cur _; simp
  | cons a w ih =>
    intro cs cur hw
    have ha : isPySpace a = false := hw a (by simp)
    rw [List.cons_append, splitWsAux_cons_nsp (w ++ cs) cur ha,
      ih cs (a :: cur) (fun c hc => hw c (by simp [hc]))]
    simp [List.append_assoc]

theorem splitWs_joinSpace : ∀ (ws : List (List Char)),
    (∀ w ∈ ws, w ≠ [] ∧ ∀ c ∈ w, isPySpace c = false) →
    splitWs (joinSpace ws) = ws := by
  intro ws
  induction ws with
  | nil => intro _; rfl
  | cons w ws ih =>
    intro hwf
    obtain ⟨hne, hnw⟩ := hwf w (by simp)
    cases ws with
    | nil =>
      show splitWsAux (joinSpace [w]) [] = [w]
      have hj : joinSpace [w] = w ++ [] := by simp [joinSpace]
      rw [hj, splitWsAux_append w [] [] hnw]
      cases hrev : w.reverse with
      | nil => exact absurd (by simpa using hrev) hne
      | cons x xs =>
        rw [List.append_nil, splitWsAux_nil_cons, ← hrev, List.reverse_reverse]
    | cons v ws' =>
      show splitWsAux (joinSpace (w :: v :: ws')) [] = w :: v :: ws'
      have hjs : joinSpace (w :: v :: ws') = w ++ ' ' :: joinSpace (v :: ws') := rfl
      rw [hjs, splitWsAux_append w _ [] hnw]
      have hsp : isPySpace ' ' = true := rfl
      cases hrev : w.reverse with
      | nil => exact absurd (by simpa using hrev) hne
      | cons x xs =>
        rw [List.append_nil,
          splitWsAux_cons_sp_cons (joinSpace (v :: ws')) x xs hsp, ← hrev,
          List.reverse_reverse]
        rw [show splitWsAux (joinSpace (v :: ws')) [] =
          splitWs (joinSpace (v :: ws')) from rfl]
        rw [ih (fun u hu => hwf u (by simp [hu]))]

theorem collapseWs_idem (cs : List Char) :
    collapseWs (collapseWs cs) = collapseWs cs := by
  unfold collapseWs
  congr 1
  exact splitWs_joinSpace (splitWs cs) (splitWsAux_words_wf cs [] (by simp))

theorem mem_collapseWs (cs : List Char) (d : Char) (hd : d ∈ collapseWs cs) :
    d = ' ' ∨ d ∈ cs := by
  rcases mem_joinSpace (splitWs cs) d hd with h | h
  · exact Or.inl h
  · right
    have hsub := splitWsAux_join_sublist cs []
    simp only [List.reverse_nil, List.nil_append] at hsub
    exact hsub.subset h


theorem scanBody_suffix : ∀ (cs r : List Char), scanBody cs = some r →
    List.IsSuffix r cs := by
  intro cs
  induction cs with
  | nil => intro r h; exact Option.noConfusion h
  | cons c cs ih =>
    intro r h
    by_cases hc : c = ')'
    · rw [scanBody, if_pos hc] at h
      injection h with h
      subst h
      exact List.suffix_cons _ _
    · rw [scanBody, if_neg hc] at h
      exact (ih r h).trans (List.suffix_cons c cs)

theorem scanBody_length : ∀ (cs r : List Char), scanBody cs = some r →
    r.length < cs.length := by
  intro cs
  induction cs with
  | nil => intro r h; exact Option.noConfusion h
  | cons c cs ih =>
    intro r h
    by_cases hc : c = ')'
    · rw [scanBody, if_pos hc] at h
      injection h with h
      subst h
      simp
    · rw [scanBody, if_neg hc] at h
      have := ih r h
      simp only [List.length_cons]
      omega

theorem scanBody_none : ∀ (cs : List Char), scanBody cs = none → ')' ∉ cs := by
  intro cs
  induction cs with
  | nil => intro _ h; exact List.not_mem_nil _ h
  | cons c cs ih =>
    intro h hm
    by_cases hc : c = ')'
    · rw [scanBody, if_pos hc] at h
      exact Option.noConfusion h
    · rw [scanBody, if_neg hc] at h
      rcases List.mem_cons.mp hm with hm | hm
      · exact hc hm.symm
      · exact ih h hm

theorem scanBody_of_not_mem : ∀ (cs : List Char), ')' ∉ cs →
    scanBody cs = none := by
  intro cs
  induction cs with
  | nil => intro _; rfl
  | cons c cs ih =>
    intro h
    have hc : ¬ (c = ')') := fun hh => h (hh ▸ List.mem_cons_self c cs)
    rw [scanBody, if_neg hc]
    exact ih (fun hm => h (List.mem_cons_of_mem c hm))

theorem tryParenMatch_suffix (cs r : List Char)
    (h : tryParenMatch cs = some r) : List.IsSuffix r cs := by
  unfold tryParenMatch at h
  by_cases hh : (dropWs cs).head? = some '('
  · rw [if_pos hh] at h
    exact ((scanBody_suffix _ r h).trans (List.tail_suffix _)).trans
      (List.dropWhile_suffix isPySpace)
  · rw [if_neg hh] at h
    exact Option.noConfusion h

theorem tryParenMatch_length (cs r : List Char)
    (h : tryParenMatch cs = some r) : r.length < cs.length := by
  unfold tryParenMatch at h
  by_cases hh : (dropWs cs).head? = some '('
  · rw [if_pos hh] at h
    have h1 := scanBody_length _ r h
    have h2 : (dropWs cs).length ≤ cs.length :=
      (List.dropWhile_suffix isPySpace).length_le
    have h3 : dropWs cs ≠ [] := by
      intro hnil
      rw [hnil] at hh
      exact Option.noConfusion hh
    have h4 : (dropWs cs).tail.length = (dropWs cs).length - 1 :=
      List.length_tail _
    have h5 : 1 ≤ (dropWs cs).length := List.length_pos.mpr h3
    omega
  · rw [if_neg hh] at h
    exact Option.noConfusion h

theorem tryParenMatch_none_of_pairwise (cs : List Char)
    (h : List.Pairwise RChar cs) : tryParenMatch cs = none := by
  unfold tryParenMatch
  by_cases hh : (dropWs cs).head? = some '('
  · rw [if_pos hh]
    rcases hd : dropWs cs with _ | ⟨a, rest⟩
    · rw [hd] at hh
      exact Option.noConfusion hh
    · rw [hd] at hh
      have ha : a = '(' := by
        injection hh
      have hsuf : List.IsSuffix (a :: rest) cs := by
        rw [← hd]
        exact List.dropWhile_suffix isPySpace
      have hp : List.Pairwise RChar (a :: rest) := List.Pairwise.sublist hsuf.sublist h
      have hnotin : ')' ∉ rest := by
        intro hin
        exact (List.pairwise_cons.mp hp).1 ')' hin ⟨ha, rfl⟩
      exact scanBody_of_not_mem rest hnotin
  · rw [if_neg hh]

theorem tryParenMatch_paren_none (cs : List Char)
    (h : tryParenMatch ('(' :: cs) = none) : ')' ∉ cs := by
  unfold tryParenMatch at h
  have hd : dropWs ('(' :: cs) = '(' :: cs := rfl
  rw [hd] at h
  simp only [List.head?_cons, List.tail_cons, if_pos rfl] at h
  exact scanBody_none cs h

theorem mem_removeParensFuel : ∀ (n : Nat) (cs : List Char) (d : Char),
    d ∈ removeParensFuel n cs → d ∈ cs := by
  intro n
  induction n with
  | zero => intro cs d hd; exact hd
  | succ n ih =>
    intro cs d hd
    cases cs with
    | nil => exact hd
    | cons c cs =>
      rw [removeParensFuel] at hd
      rcases hm : tryParenMatch (c :: cs) with _ | r <;> rw [hm] at hd
      · rcases List.mem_cons.mp hd with h | h
        · exact h ▸ List.mem_cons_self c cs
        · exact List.mem_cons_of_mem c (ih cs d h)
      · exact (tryParenMatch_suffix (c :: cs) r hm).sublist.subset (ih r d hd)

theorem pairwise_removeParensFuel : ∀ (n : Nat) (cs : List Char),
    cs.length ≤ n → List.Pairwise RChar (removeParensFuel n cs) := by
  intro n
  induction n with
  | zero =>
    intro cs hlen
    rw [List.length_eq_zero.mp (Nat.le_zero.mp hlen)]
    exact List.Pairwise.nil
  | succ n ih =>
    intro cs hlen
    cases cs with
    | nil => exact List.Pairwise.nil
    | cons c cs =>
      rw [removeParensFuel]
      rcases hm : tryParenMatch (c :: cs) with _ | r
      · show List.Pairwise RChar (c :: removeParensFuel n cs)
        rw [List.pairwise_cons]
        have hlen' : cs.length ≤ n := by
          simp only [List.length_cons] at hlen
          omega
        refine ⟨?_, ih cs hlen'⟩
        intro b hb
        by_cases hc : c = '('
        · subst hc
          have hnot := tryParenMatch_paren_none cs hm
          intro hcon
          exact hnot (hcon.2 ▸ mem_removeParensFuel n cs b hb)
        · exact fun hcon => hc hcon.1
      · show List.Pairwise RChar (removeParensFuel n r)
        have hr := tryParenMatch_length (c :: cs) r hm
        simp only [List.length_cons] at hlen hr
        exact ih r (by omega)

theorem removeParensFuel_id_of_pairwise : ∀ (n : Nat) (cs : List Char),
    List.Pairwise RChar cs → removeParensFuel n cs = cs := by
  intro n
  induction n with
  | zero => intro cs _; rfl
  | succ n ih =>
    intro cs h
    cases cs with
    | nil => rfl
    | cons c cs =>
      rw [removeParensFuel, tryParenMatch_none_of_pairwise (c :: cs) h]
      show c :: removeParensFuel n cs = c :: cs
      rw [ih cs (List.pairwise_cons.mp h).2]


theorem lowFixed_map_toLower (cs : List Char) :
    LowFixed (cs.map Char.toLower) := by
  intro c hc
  rcases List.mem_map.mp hc with ⟨d, _, rfl⟩
  exact toLower_idem d

theorem map_toLower_eq_self (cs : List Char) (h : LowFixed cs) :
    cs.map Char.toLower = cs := by
  induction cs with
  | nil => rfl
  | cons c cs ih =>
    rw [List.map_cons, h c (List.mem_cons_self c cs),
      ih (fun d hd => h d (List.mem_cons_of_mem c hd))]

theorem mem_removePunct (cs : List Char) (c : Char) (hc : c ∈ removePunct cs) :
    c ∈ cs :=
  (List.filter_sublist cs).subset hc

theorem punctFree_removePunct (cs : List Char) : PunctFree (removePunct cs) := by
  intro c hc
  have := (List.mem_filter.mp hc).2
  simpa using this

theorem removePunct_eq_self (cs : List Char) (h : PunctFree cs) :
    removePunct cs = cs := by
  apply List.filter_eq_self.mpr
  intro a ha
  rw [h a ha]
  rfl

theorem pairwise_joinSpace : ∀ (ws : List (List Char)),
    List.Pairwise RChar ws.flatten → List.Pairwise RChar (joinSpace ws) := by
  intro ws
  induction ws with
  | nil => intro _; exact List.Pairwise.nil
  | cons w ws ih =>
    intro h
    cases ws with
    | nil =>
      show List.Pairwise RChar w
      rw [List.flatten_cons, List.flatten_nil, List.append_nil] at h
      exact h
    | cons v ws' =>
      show List.Pairwise RChar (w ++ ' ' :: joinSpace (v :: ws'))
      rw [List.flatten_cons] at h
      rw [List.pairwise_append] at h ⊢
      obtain ⟨hw, hrest, hcross⟩ := h
      refine ⟨hw, ?_, ?_⟩
      · rw [List.pairwise_cons]
        refine ⟨?_, ih hrest⟩
        intro b _ hcon
        exact absurd hcon.1 (by decide)
      · intro a ha b hb
        rcases List.mem_cons.mp hb with hb | hb
        · subst hb
          intro hcon
          exact absurd hcon.2 (by decide)
        · rcases mem_joinSpace (v :: ws') b hb with hb' | hb'
          · subst hb'
            intro hcon
            exact absurd hcon.2 (by decide)
          · exact hcross a ha b hb'

theorem pairwise_collapseWs (cs : List Char)
    (h : List.Pairwise RChar cs) : List.Pairwise RChar (collapseWs cs) := by
  apply pairwise_joinSpace
  have hsub := splitWsAux_join_sublist cs []
  simp only [List.reverse_nil, List.nil_append] at hsub
  exact List.Pairwise.sublist hsub h

theorem lowFixed_collapseWs (cs : List Char) (h : LowFixed cs) :
    LowFixed (collapseWs cs) := by
  intro c hc
  rcases mem_collapseWs cs c hc with h' | h'
  · subst h'
    decide
  · exact h c h'

theorem punctFree_collapseWs (cs : List Char) (h : PunctFree cs) :
    PunctFree (collapseWs cs) := by
  intro c hc
  rcases mem_collapseWs cs c hc with h' | h'
  · subst h'
    rfl
  · exact h c h'

theorem normalizeL_of_canonical (u : List Char) (h1 : LowFixed u)
    (h2 : List.Pairwise RChar u) (h3 : PunctFree u) :
    normalizeL u = collapseWs u := by
  unfold normalizeL removeParens
  rw [map_toLower_eq_self u h1, removeParensFuel_id_of_pairwise _ u h2]
  exact removePunct_eq_self _ (punctFree_collapseWs u h3)

theorem lowFixed_normalizeL (cs : List Char) : LowFixed (normalizeL cs) := by
  intro c hc
  unfold normalizeL at hc
  have hc1 := mem_removePunct _ _ hc
  rcases mem_collapseWs _ _ hc1 with h | h
  · subst h
    decide
  · have hc2 := mem_removeParensFuel _ _ _ h
    rcases List.mem_map.mp hc2 with ⟨d, _, rfl⟩
    exact toLower_idem d

theorem pairwise_normalizeL (cs : List Char) :
    List.Pairwise RChar (normalizeL cs) := by
  unfold normalizeL
  exact List.Pairwise.sublist (List.filter_sublist _)
    (pairwise_collapseWs _ (pairwise_removeParensFuel _ _ Nat.le.refl))

theorem punctFree_normalizeL (cs : List Char) : PunctFree (normalizeL cs) :=
  punctFree_removePunct _

theorem normalizeL_triple (cs : List Char) :
    normalizeL (normalizeL (normalizeL cs)) = normalizeL (normalizeL cs) := by
  have hu1 : normalizeL (normalizeL cs) = collapseWs (normalizeL cs) :=
    normalizeL_of_canonical _ (lowFixed_normalizeL cs) (pairwise_normalizeL cs)
      (punctFree_normalizeL cs)
  have hu2 : normalizeL (collapseWs (normalizeL cs)) =
      collapseWs (collapseWs (normalizeL cs)) :=
    normalizeL_of_canonical _
      (lowFixed_collapseWs _ (lowFixed_normalizeL cs))
      (pairwise_collapseWs _ (pairwise_normalizeL cs))
      (punctFree_collapseWs _ (punctFree_normalizeL cs))
  calc normalizeL (normalizeL (normalizeL cs))
      = normalizeL (collapseWs (normalizeL cs)) := by rw [hu1]
    _ = collapseWs (collapseWs (normalizeL cs)) := hu2
    _ = collapseWs (normalizeL cs) := collapseWs_idem _
    _ = normalizeL (normalizeL cs) := hu1.symm

theorem normalize_answer_twice_fixed (s : String) :
    Main.normalize_answer (Main.normalize_answer (Main.normalize_answer s)) =
      Main.normalize_answer (Main.normalize_answer s) := by
  show (⟨normalizeL (normalizeL (normalizeL s.data))⟩ : String) =
    ⟨normalizeL (normalizeL s.data)⟩
  exact congrArg String.mk (normalizeL_triple s.data)

/-- C7 (counterexample): `normalize_answer` is not idempotent — removing
punctuation after collapsing whitespace can leave a trailing (or doubled)
space, which a second application then removes: `normalize("a .") = "a "`
but `normalize("a ") = "a"`. -/
theorem C7_normalize_not_idempotent :
    Main.normalize_answer (Main.normalize_answer "a .") ≠
      Main.normalize_answer "a ." ∧
    Main.normalize_answer "a ." = "a " ∧
    Main.normalize_answer (Main.normalize_answer "a .") = "a" := by
  refine ⟨by decide, by decide, by decide⟩

/-- C7 (amended): `normalize_answer` is not idempotent in general, but one
extra application reaches a fixed point — `normalize ∘ normalize` is
idempotent (`normalize (normalize (normalize x)) = normalize (normalize x)`
for every string `x`) — and on the concrete input `" The Cat! (informal) "`
it returns `"the cat"` (and is idempotent there). -/
theorem C7_normalize_squared_idempotent :
    (∀ s : String,
      Main.normalize_answer (Main.normalize_answer (Main.normalize_answer s)) =
        Main.normalize_answer (Main.normalize_answer s)) ∧
    Main.normalize_answer " The Cat! (informal) " = "the cat" ∧
    Main.normalize_answer (Main.normalize_answer " The Cat! (informal) ") =
      Main.normalize_answer " The Cat! (informal) " := by
  refine ⟨normalize_answer_twice_fixed, by decide, by decide⟩
